import Mathlib

/-!
Shallow embedding of the CodeChecker checkers subcommand
(analyzer/codechecker_analyzer/cmd/checkers.py): the checker listing
query engine, its filter pipeline and its helpers, together with proofs
settling the specification claims about them.

External collaborators (label store lookups, per-analyzer catalogs, the
post-resolution checker states computed by the external config handler,
and the diagtool subprocess) are modelled as oracle fields of a context
record: the command only consumes their results. Observable behaviour is
modelled as the ordered list of output events (rendered documents, plain
printed lines, logger records) plus the process exit code.
-/

namespace Checkers

/-- Output formats of codechecker_common.output.USER_FORMATS as consumed
by the command: rows, table, csv and json. -/
inductive OutputFormat where
  | rows
  | table
  | csv
  | json
deriving DecidableEq

/-- Modelled from the spec: the per-query checker classification computed
by the external config handler (analyzers/config_handler.py, not under
src/); spec section 3 fixes it to one of enabled / disabled, and the
command only ever compares a state against enabled. -/
inductive CheckerState where
  | enabled
  | disabled
deriving DecidableEq

/-- Table cell values occurring in produced rows: plain strings, json
booleans (enabled state in json format), json rule lists and json
guideline coverage mappings. -/
inductive Cell where
  | str (s : String)
  | bool (b : Bool)
  | strList (l : List String)
  | gmap (m : List (String × List String))
deriving DecidableEq

/-- A printed table row. -/
abbrev Row := List Cell

/-- Parsed command line arguments consumed by main. Flags declared with
default argparse.SUPPRESS are modelled as Bool (membership test) or
Option (value when present). -/
structure Args where
  show_warnings : Bool
  details : Bool
  profile : Option String
  guideline : Option (List String)
  checker_config : Bool
  only_enabled : Bool
  only_disabled : Bool
  output_format : OutputFormat
deriving DecidableEq

/-- Outcome of running the diagtool subprocess: captured stdout on
success, a non-zero exit (CalledProcessError), or a start failure
(OSError). -/
inductive SubprocResult where
  | success (stdout : String)
  | calledProcessError
  | osError
deriving DecidableEq

/-- Oracle context: label store lookups, analyzer catalogs, resolved
checker states and subprocess behaviour consumed by the command.
getDescription and checks return association lists in dict insertion
order; checks takes the analyzer name and the profile_checkers override
list and returns the items of config_handler.checks(). -/
structure Ctx where
  workingAnalyzers : List String
  labelsOfChecker : String → List (String × String)
  getDescription : String → List (String × String)
  occurringValues : String → List String
  severity : String → String
  getCheckerConfig : String → List (String × String)
  checks : String → List (String × Bool) → List (String × CheckerState × String)
  diagtoolBin : Option String
  runDiagtool : String → SubprocResult

/-- Observable output events in emission order: a rendered document
(a twodim.to_str print), a plain printed line, and logger error or
warning records. -/
inductive OutEvent where
  | doc (fmt : OutputFormat) (header : List String) (rows : List Row)
  | text (line : String)
  | logError (msg : String)
  | logWarning (msg : String)
deriving DecidableEq

/-- Result of one invocation: ordered output events and the process exit
code (a sys.exit(1) gives 1, falling off the end of main gives 0). -/
structure MainResult where
  output : List OutEvent
  exitCode : Nat
deriving DecidableEq

/-- Helper for the model of Python str.split with no separator argument:
walks the character list accumulating the current token. Implemented
structurally so that it evaluates by kernel reduction. -/
def pySplitAux : List Char → List Char → List String
  | [], acc => if acc = [] then [] else [String.mk acc.reverse]
  | c :: cs, acc =>
    if c.isWhitespace then
      (if acc = [] then pySplitAux cs [] else String.mk acc.reverse :: pySplitAux cs [])
    else pySplitAux cs (c :: acc)

/-- Model of Python str.split with no separator argument: split on runs
of whitespace, discarding empty tokens. -/
def pySplitWhitespace (s : String) : List String := pySplitAux s.data []

/-- Model of Python str.startswith over the character lists. -/
def pyStartsWith (s pre : String) : Bool := pre.data.isPrefixOf s.data

/-- Model of the Python slice s[n:] over the character list. -/
def pyDrop (s : String) (n : Nat) : String := String.mk (s.data.drop n)

/-- Translation of get_warnings (checkers.py lines 56 to 74): the list of
warning flags obtained by running diagtool tree, tokenizing its stdout on
whitespace, keeping the tokens that start with the flag marker -W and
stripping that two character marker; the empty list when diagtool is
absent or the subprocess fails with CalledProcessError or OSError. -/
def get_warnings (diagtoolBin : Option String) (run : String → SubprocResult) : List String :=
  match diagtoolBin with
  | none => []
  | some bin =>
    match run bin with
    | .success out =>
      ((pySplitWhitespace out).filter (fun w => pyStartsWith w "-W")).map (fun w => pyDrop w 2)
    | .calledProcessError => []
    | .osError => []

/-- Replacement of one space character by one underscore, the character
level step of the replace call in uglify. -/
def replCh (c : Char) : Char := if c = ' ' then '_' else c

/-- Translation of uglify (lines 222 to 227): text.lower() followed by
replacing each space with an underscore. Python str.lower acts per
character; the headers this function is applied to are ASCII, for which
the ASCII lowering Char.toLower is the faithful per character model. -/
def uglify (text : String) : String :=
  String.mk ((text.data.map Char.toLower).map replCh)

/-- Translation of match_guideline (lines 229 to 244): true when some
label fact of the checker has a key that is exactly the string guideline
or is a key of the guideline description mapping, and whose value is
among the selected guidelines or rule ids. -/
def match_guideline (ctx : Ctx) (checker_name : String) (selected_guidelines : List String) : Bool :=
  let labels := ctx.labelsOfChecker checker_name
  let choices := (ctx.getDescription "guideline").map Prod.fst
  labels.any (fun lv => (lv.1 == "guideline" || choices.contains lv.1) && selected_guidelines.contains lv.2)

/-- Translation of format_guideline (lines 246 to 253): human readable
rendering of a guideline coverage mapping. -/
def format_guideline (guideline : List (String × List String)) : String :=
  String.intercalate " "
    (guideline.map (fun gr => "Related " ++ gr.1 ++ " rules: " ++ String.intercalate ", " gr.2))

/-- Appending one rule under one guideline key, preserving the insertion
order semantics of defaultdict(list). -/
def addRule (acc : List (String × List String)) (g r : String) : List (String × List String) :=
  if acc.any (fun p => p.1 == g) then
    acc.map (fun p => if p.1 == g then (p.1, p.2 ++ [r]) else p)
  else acc ++ [(g, [r])]

/-- Translation of guideline_rules_for_checker (lines 255 to 269): group
the label facts of the checker whose key is a known guideline name into a
guideline to rules mapping, in insertion order. -/
def guideline_rules_for_checker (ctx : Ctx) (checker : String) : List (String × List String) :=
  let guidelines := (ctx.getDescription "guideline").map Prod.fst
  (ctx.labelsOfChecker checker).foldl
    (fun acc lv => if guidelines.contains lv.1 then addRule acc lv.1 lv.2 else acc) []

/-- Header normalization applied for the csv and json formats
(lines 287 to 288, 300 to 301, 337 to 338, 360 to 361). -/
def uglifyHeader (fmt : OutputFormat) (header : List String) : List String :=
  if fmt = .csv ∨ fmt = .json then header.map uglify else header

/-- Translation of the profile list branch (lines 276 to 291): print the
deprecation warning, then the profile name table. -/
def profileListResult (ctx : Ctx) (args : Args) : MainResult :=
  let hr : List String × List Row :=
    if args.details then
      (["Profile name", "Description"],
       (ctx.getDescription "profile").map (fun kv => [Cell.str kv.1, Cell.str kv.2]))
    else
      (["Profile name"], (ctx.getDescription "profile").map (fun kv => [Cell.str kv.1]))
  { output := [.logWarning "profile flag is deprecated and will be removed in the next release",
               .doc args.output_format (uglifyHeader args.output_format hr.1) hr.2],
    exitCode := 0 }

/-- Row built for one configuration option of one analyzer in the
checker config branch (lines 315 to 316). -/
def configRowFor (args : Args) (analyzer : String) (c : String × String) : Row :=
  if args.details then [Cell.str (analyzer ++ ":" ++ c.1), Cell.str c.2]
  else [Cell.str (analyzer ++ ":" ++ c.1)]

/-- Loop of the checker config branch (lines 303 to 316), in iteration
order: the accumulated option rows and the analyzers that reported no
options (the failures). -/
def configRowsOf (ctx : Ctx) (args : Args) : List String → List Row × List String
  | [] => ([], [])
  | a :: rest =>
    let r := configRowsOf ctx args rest
    let configs := ctx.getCheckerConfig a
    if configs = [] then (r.1, a :: r.2)
    else (configs.map (configRowFor args a) ++ r.1, r.2)

/-- Translation of the checker config branch (lines 294 to 328): print
the option table when any rows were collected, then log an error and
exit with code 1 when any analyzer failed to report options. -/
def checkerConfigResult (ctx : Ctx) (args : Args) : MainResult :=
  let header := uglifyHeader args.output_format
    (if args.details then ["Option", "Description"] else ["Option"])
  let rf := configRowsOf ctx args ctx.workingAnalyzers
  { output := (if rf.1 ≠ [] then [OutEvent.doc args.output_format header rf.1] else []) ++
      (if rf.2 ≠ [] then
        [OutEvent.logError ("Failed to get checker configuration options for "
          ++ String.intercalate ", " rf.2 ++ " analyzers")]
       else []),
    exitCode := if rf.2 = [] then 0 else 1 }

/-- Order preserving insertion into a sorted list of strings. -/
def insertSorted (x : String) : List String → List String
  | [] => [x]
  | y :: ys => if x ≤ y then x :: y :: ys else y :: insertSorted x ys

/-- Model of Python sorted(set(l)): duplicates removed, then sorted in
ascending string order. -/
def pySortedSet (l : List String) : List String := (l.eraseDups).foldr insertSorted []

/-- Translation of the guideline listing branch (lines 330 to 351),
taken when the guideline flag is present with zero arguments: list every
known guideline together with its occurring rules; per guideline text
lines in rows format, one document otherwise. -/
def guidelineListResult (ctx : Ctx) (args : Args) : MainResult :=
  let result := (ctx.getDescription "guideline").map
    (fun gd => (gd.1, pySortedSet (ctx.occurringValues gd.1)))
  let header := uglifyHeader args.output_format ["Guideline", "Rules"]
  let rows : List Row :=
    if args.output_format = .json then result.map (fun p => [Cell.str p.1, Cell.strList p.2])
    else result.map (fun p => [Cell.str p.1, Cell.str (String.intercalate ", " p.2)])
  if args.output_format = .rows then
    { output := (result.map (fun p =>
        [OutEvent.text ("Guideline: " ++ p.1),
         OutEvent.text ("Rules: " ++ String.intercalate ", " p.2)])).flatten,
      exitCode := 0 }
  else
    { output := [.doc args.output_format header rows], exitCode := 0 }

/-- Profile override directives passed to the checker state resolver
(line 381): the requested profile, marked for enabling. -/
def profileCheckers (args : Args) : List (String × Bool) :=
  match args.profile with
  | some p => [("profile:" ++ p, true)]
  | none => []

/-- Enabled state cell (lines 398 to 401): a boolean for json output, a
plus or minus marker otherwise. -/
def stateCell (args : Args) (st : CheckerState) : Cell :=
  if args.output_format = .json then Cell.bool (st == CheckerState.enabled)
  else Cell.str (if st == CheckerState.enabled then "+" else "-")

/-- Guideline filter decision (lines 403 to 405 and 421 to 423): pass
when no guideline filter was requested, otherwise match_guideline. -/
def guidelinePass (ctx : Ctx) (args : Args) (name : String) : Bool :=
  match args.guideline with
  | none => true
  | some g => match_guideline ctx name g

/-- Guideline coverage cell of a details row (lines 409 to 411 and 425
to 427): the raw mapping for json, the formatted text otherwise. -/
def guidelineCell (ctx : Ctx) (args : Args) (name : String) : Cell :=
  let gl := guideline_rules_for_checker ctx name
  if args.output_format = .json then Cell.gmap gl else Cell.str (format_guideline gl)

/-- Skip decisions of the listing loop (lines 390 to 396): drop non
enabled checkers when a profile was requested, drop enabled checkers
under only_disabled, drop non enabled checkers under only_enabled. -/
def checkerKeep (args : Args) (st : CheckerState) : Bool :=
  if st != CheckerState.enabled && args.profile.isSome then false
  else if st == CheckerState.enabled && args.only_disabled then false
  else if st != CheckerState.enabled && args.only_enabled then false
  else true

/-- Row produced for one resolved checker entry (lines 387 to 415), or
none when a filter drops it. -/
def checkerRowFor (ctx : Ctx) (args : Args) (analyzer : String)
    (e : String × CheckerState × String) : Option Row :=
  if checkerKeep args e.2.1 && guidelinePass ctx args e.1 then
    some (if args.details then
      [stateCell args e.2.1, Cell.str e.1, Cell.str analyzer, Cell.str (ctx.severity e.1),
       guidelineCell ctx args e.1, Cell.str e.2.2]
    else [Cell.str e.1])
  else none

/-- Outer loop of the listing branch (lines 364 to 415): rows of each
working analyzer in iteration order. -/
def checkerRowsOf (ctx : Ctx) (args : Args) : List String → List Row
  | [] => []
  | a :: rest =>
    (ctx.checks a (profileCheckers args)).filterMap (checkerRowFor ctx args a)
      ++ checkerRowsOf ctx args rest

/-- Row produced for one diagtool warning flag (lines 417 to 432), or
none when the guideline filter drops it: the flag is namespaced under the
clang-diagnostic- marker, and in details mode carries an empty enabled
cell, no analyzer attribution and the fixed MEDIUM severity. -/
def warningRowFor (ctx : Ctx) (args : Args) (w : String) : Option Row :=
  let warning := "clang-diagnostic-" ++ w
  if guidelinePass ctx args warning then
    some (if args.details then
      [Cell.str "", Cell.str warning, Cell.str "-", Cell.str "MEDIUM",
       guidelineCell ctx args warning, Cell.str "-"]
    else [Cell.str warning])
  else none

/-- Warning rows appended after the checker rows (lines 417 to 432). -/
def warningRows (ctx : Ctx) (args : Args) : List Row :=
  (get_warnings ctx.diagtoolBin ctx.runDiagtool).filterMap (warningRowFor ctx args)

/-- Header of the listing branch (lines 354 to 361). -/
def listingHeader (args : Args) : List String :=
  uglifyHeader args.output_format
    (if args.details then ["Enabled", "Name", "Analyzer", "Severity", "Guideline", "Description"]
     else ["Name"])

/-- Membership of a profile name among the label store profile
descriptions (line 373 and 375). -/
def profileExists (ctx : Ctx) (p : String) : Bool :=
  ((ctx.getDescription "profile").map Prod.fst).contains p

/-- True when a profile was requested by name and is unknown: the
condition of the configuration error exit (lines 375 to 379). -/
def badProfile (ctx : Ctx) (args : Args) : Bool :=
  match args.profile with
  | some p => !(profileExists ctx p)
  | none => false

/-- Full row sequence of the listing branch: checker rows of every
working analyzer, then the warning rows when requested. -/
def listingRows (ctx : Ctx) (args : Args) : List Row :=
  checkerRowsOf ctx args ctx.workingAnalyzers
    ++ (if args.show_warnings then warningRows ctx args else [])

/-- Translation of the checker listing flow (lines 353 to 437). The
unknown profile check of lines 375 to 379 sits inside the per analyzer
loop but depends only on the arguments, so it fires exactly when the
loop runs at least once, before any row is collected; the loop is
modelled with that check hoisted under the same condition. The final
print of lines 434 to 435 is guarded: nothing is printed when the row
sequence is empty. -/
def checkerListResult (ctx : Ctx) (args : Args) : MainResult :=
  if badProfile ctx args && !ctx.workingAnalyzers.isEmpty then
    { output := [.logError "Checker profile does not exist",
                 .logError "To list available profiles use profile list"],
      exitCode := 1 }
  else
    let rows := listingRows ctx args
    { output := if rows ≠ [] then [.doc args.output_format (listingHeader args) rows] else [],
      exitCode := 0 }

/-- Translation of main (lines 199 to 437): dispatch between the profile
listing, checker config, guideline listing and checker listing branches,
in source order. -/
def main (ctx : Ctx) (args : Args) : MainResult :=
  if args.profile = some "list" then profileListResult ctx args
  else if args.checker_config then checkerConfigResult ctx args
  else if args.guideline = some [] then guidelineListResult ctx args
  else checkerListResult ctx args

/-- Checker name cell of a produced listing row: column 1 in details
mode, column 0 otherwise. -/
def rowNameCell (args : Args) (row : Row) : Cell :=
  if args.details then row.getD 1 (Cell.str "") else row.getD 0 (Cell.str "")

/-- Names of all resolved checker entries over a list of analyzers, in
iteration order (the keys of the per analyzer checks dictionaries). -/
def allCheckNames (ctx : Ctx) (args : Args) : List String → List String
  | [] => []
  | a :: rest =>
    (ctx.checks a (profileCheckers args)).map Prod.fst ++ allCheckNames ctx args rest

/-- Oracle context with no analyzers, no labels and no diagtool, the
base of the concrete evaluation contexts below. -/
def ctxEmpty : Ctx where
  workingAnalyzers := []
  labelsOfChecker := fun _ => []
  getDescription := fun _ => []
  occurringValues := fun _ => []
  severity := fun _ => ""
  getCheckerConfig := fun _ => []
  checks := fun _ _ => []
  diagtoolBin := none
  runDiagtool := fun _ => .osError

/-- Arguments with every optional flag absent and the default rows
output format. -/
def argsBase : Args where
  show_warnings := false
  details := false
  profile := none
  guideline := none
  checker_config := false
  only_enabled := false
  only_disabled := false
  output_format := .rows

/-- Context with one known profile named default and one resolved
checker that stays disabled. -/
def ctxC1 : Ctx :=
  { ctxEmpty with
    workingAnalyzers := ["an"]
    getDescription := fun k => if k = "profile" then [("default", "desc")] else []
    checks := fun _ _ => [("chk", CheckerState.disabled, "d")] }

/-- Query asking for a profile name that is not known. -/
def argsC1bad : Args := { argsBase with profile := some "nope" }

/-- Query asking for the known profile default. -/
def argsC1good : Args := { argsBase with profile := some "default" }

/-- Context with two working analyzers of which only alpha reports a
configuration option. -/
def ctxC3 : Ctx :=
  { ctxEmpty with
    workingAnalyzers := ["alpha", "beta"]
    getCheckerConfig := fun a => if a = "alpha" then [("opt", "desc")] else [] }

/-- Query in checker config mode. -/
def argsC3 : Args := { argsBase with checker_config := true }

/-- Context with one analyzer whose single resolved checker is
enabled. -/
def ctxC4 : Ctx :=
  { ctxEmpty with
    workingAnalyzers := ["an"]
    checks := fun _ _ => [("chk", CheckerState.enabled, "d")] }

/-- Query with no guideline selector at all. -/
def argsC4none : Args := argsBase

/-- Query whose requested guideline set is present but empty. -/
def argsC4empty : Args := { argsBase with guideline := some [] }

/-- Context with one analyzer and zero resolved checkers, producing an
empty filtered row sequence. -/
def ctxC5 : Ctx := { ctxEmpty with workingAnalyzers := ["an"] }

/-- Plain listing query for the empty result evaluation. -/
def argsC5 : Args := argsBase

/-- Context with one analyzer and one enabled resolved checker, for the
enabled and disabled filter partition evaluation. -/
def ctxC6 : Ctx :=
  { ctxEmpty with
    workingAnalyzers := ["an"]
    checks := fun _ _ => [("chk", CheckerState.enabled, "d")] }

/-- Context whose label store relates the synthetic warning checker name
to the rule g1 through a guideline fact. -/
def ctxC7 : Ctx :=
  { ctxEmpty with
    labelsOfChecker := fun n => if n = "clang-diagnostic-f" then [("guideline", "g1")] else [] }

/-- Details query filtering by the rule g1. -/
def argsC7 : Args := { argsBase with details := true, guideline := some ["g1"] }

/-- Context with empty label store for the warning row cell
evaluation. -/
def ctxC10 : Ctx := ctxEmpty

/-- Details query in json output format, with no guideline filter. -/
def argsC10 : Args := { argsBase with details := true, output_format := .json }

/-- Expected details row of the warning flag f under an empty label
store. -/
def rowC10 : Row :=
  [Cell.str "", Cell.str "clang-diagnostic-f", Cell.str "-", Cell.str "MEDIUM",
   Cell.gmap [], Cell.str "-"]

/-- Subprocess oracle that always succeeds with a fixed diagtool
output. -/
def runC8 : String → SubprocResult := fun _ => SubprocResult.success "-Wall x -Wextra"

/-- Character level step of uglify: lowering followed by space
replacement; applying it twice equals applying it once. -/
theorem replCh_toLower_idem (c : Char) :
    replCh (Char.toLower (replCh (Char.toLower c))) = replCh (Char.toLower c) := by
  by_cases h : 65 ≤ c.toNat ∧ c.toNat ≤ 90
  · obtain ⟨h1, h2⟩ := h
    interval_cases h3 : c.toNat <;> simp_all [replCh, Char.toLower, h3]
  · have hl : Char.toLower c = c := by
      unfold Char.toLower
      rw [if_neg]
      omega
    by_cases hsp : c = ' '
    · subst hsp; decide
    · have hr : replCh c = c := if_neg hsp
      rw [hl, hr, hl, hr]

/-- Claim C9: the header normalization uglify applied for the csv and
json formats (lower casing and replacing spaces with underscores) is
idempotent: uglify (uglify s) = uglify s for every header string s. -/
theorem c9_uglify_idempotent (s : String) : uglify (uglify s) = uglify s := by
  unfold uglify
  apply congrArg String.mk
  simp only [List.map_map]
  induction s.data with
  | nil => rfl
  | cons c t ih =>
    simp only [List.map_cons, ih, List.cons.injEq, and_true]
    exact replCh_toLower_idem c

/-- Claim C2: the guideline matcher returns true exactly when some label
fact of the checker has a key that is the literal string guideline or a
known guideline name (a key of the guideline description mapping), with
a value among the requested guidelines or rules. -/
theorem c2_match_guideline_iff (ctx : Ctx) (c : String) (S : List String) :
    match_guideline ctx c S = true ↔
      ∃ lv ∈ ctx.labelsOfChecker c,
        (lv.1 = "guideline" ∨ lv.1 ∈ (ctx.getDescription "guideline").map Prod.fst) ∧
          lv.2 ∈ S := by
  simp [match_guideline, List.any_eq_true, List.contains, List.elem_iff]

/-- Claim C8: the warning flag collector returns the empty list when the
diagtool binary is absent, when the subprocess exits non zero and when
the subprocess cannot be started; on success it returns exactly the
whitespace separated stdout tokens starting with -W, each stripped of
that two character marker. -/
theorem c8_get_warnings (run : String → SubprocResult) (bin out : String) :
    get_warnings none run = [] ∧
    (run bin = .calledProcessError → get_warnings (some bin) run = []) ∧
    (run bin = .osError → get_warnings (some bin) run = []) ∧
    (run bin = .success out →
      get_warnings (some bin) run =
        ((pySplitWhitespace out).filter (fun w => pyStartsWith w "-W")).map
          (fun w => pyDrop w 2)) := by
  refine ⟨rfl, ?_, ?_, ?_⟩ <;> intro h <;> simp [get_warnings, h]

/-- Witness for claim C8 at a concrete subprocess outcome. -/
theorem c8_get_warnings_witness :
    get_warnings (some "diagtool") runC8 = ["all", "extra"] := by
  have h := (c8_get_warnings runC8 "diagtool" "-Wall x -Wextra").2.2.2 rfl
  rw [h]
  decide

/-- Claim C7: in details mode each discovered warning flag yields a row
whose name is the flag under the fixed clang-diagnostic- namespace, whose
analyzer column is the dash marker and whose severity is the fixed value
MEDIUM, and the row is dropped by the guideline filter exactly when
match_guideline rejects the namespaced name, the same matching rule as
for real checkers. -/
theorem c7_warning_row (ctx : Ctx) (args : Args) (w : String) (g : List String)
    (hd : args.details = true) (hg : args.guideline = some g) :
    warningRowFor ctx args w =
      (if match_guideline ctx ("clang-diagnostic-" ++ w) g then
        some [Cell.str "", Cell.str ("clang-diagnostic-" ++ w), Cell.str "-", Cell.str "MEDIUM",
              guidelineCell ctx args ("clang-diagnostic-" ++ w), Cell.str "-"]
       else none) := by
  simp [warningRowFor, guidelinePass, hg, hd]

/-- Witness for claim C7 at a concrete matching context. -/
theorem c7_warning_row_witness :
    warningRowFor ctxC7 argsC7 "f" =
      some [Cell.str "", Cell.str "clang-diagnostic-f", Cell.str "-", Cell.str "MEDIUM",
            Cell.str "", Cell.str "-"] := by
  rw [c7_warning_row ctxC7 argsC7 "f" ["g1"] rfl rfl]
  decide

/-- Claim C10: every synthetic warning row emitted in details mode holds
the empty string in the Enabled column (never a boolean, in any output
format including json) and the dash marker in the Description column. -/
theorem c10_warning_enabled_cell (ctx : Ctx) (args : Args) (w : String) (row : Row)
    (hd : args.details = true) (hrow : warningRowFor ctx args w = some row) :
    row.get? 0 = some (Cell.str "") ∧ row.get? 5 = some (Cell.str "-") ∧
      ∀ b : Bool, row.get? 0 ≠ some (Cell.bool b) := by
  simp only [warningRowFor, hd, if_true] at hrow
  split at hrow
  · obtain rfl : _ = row := Option.some.inj hrow
    simp
  · exact absurd hrow (by simp)

/-- Witness for claim C10 at a concrete warning row in json format. -/
theorem c10_warning_enabled_cell_witness :
    rowC10.get? 0 = some (Cell.str "") ∧ rowC10.get? 5 = some (Cell.str "-") ∧
      ∀ b : Bool, rowC10.get? 0 ≠ some (Cell.bool b) :=
  c10_warning_enabled_cell ctxC10 argsC10 "f" rowC10 rfl (by decide)

/-- Failure accumulator of the checker config loop: an analyzer ends up
among the failures exactly when it reported no options, so the failure
list is empty iff every analyzer reported options. -/
theorem configRowsOf_failures_empty (ctx : Ctx) (args : Args) (l : List String) :
    (configRowsOf ctx args l).2 = [] ↔ ∀ a ∈ l, ctx.getCheckerConfig a ≠ [] := by
  induction l with
  | nil => simp [configRowsOf]
  | cons a rest ih =>
    by_cases h : ctx.getCheckerConfig a = [] <;>
      simp [configRowsOf, h, ih]

/-- Claim C3 counterexample: with two working analyzers of which exactly
one reports configuration options, the option table is printed, yet the
exit code is 1. The claim predicts exit code zero here, since at least
one backend reported options. -/
theorem c3_counterexample :
    (main ctxC3 argsC3).exitCode = 1 ∧
    (main ctxC3 argsC3).output =
      [OutEvent.doc .rows ["Option"] [[Cell.str "alpha:opt"]],
       OutEvent.logError "Failed to get checker configuration options for beta analyzers"] := by
  decide

/-- Claim C3 amended: in checker config mode the exit code is non zero
exactly when at least one working analyzer fails to report configuration
options (not only when all of them fail); when both option rows and
failures exist, the option table still precedes the single error
summary, so the other backends are processed and their rows printed
before the run fails. -/
theorem c3_amended (ctx : Ctx) (args : Args) (hcc : args.checker_config = true)
    (hp : args.profile ≠ some "list") :
    ((main ctx args).exitCode ≠ 0 ↔ ∃ a ∈ ctx.workingAnalyzers, ctx.getCheckerConfig a = []) ∧
    ((configRowsOf ctx args ctx.workingAnalyzers).1 ≠ [] →
      (configRowsOf ctx args ctx.workingAnalyzers).2 ≠ [] →
      ∃ m, (main ctx args).output =
        [OutEvent.doc args.output_format
          (uglifyHeader args.output_format
            (if args.details then ["Option", "Description"] else ["Option"]))
          (configRowsOf ctx args ctx.workingAnalyzers).1,
         OutEvent.logError m]) := by
  have hm : main ctx args = checkerConfigResult ctx args := by
    rw [main, if_neg hp, if_pos hcc]
  constructor
  · rw [hm]
    unfold checkerConfigResult
    by_cases h2 : (configRowsOf ctx args ctx.workingAnalyzers).2 = []
    · simp only [h2, if_pos]
      rw [configRowsOf_failures_empty] at h2
      simp only [ne_eq, not_true_eq_false, false_iff, not_exists]
      intro a ha
      exact h2 a ha.1 ha.2
    · simp only [h2, if_neg]
      rw [configRowsOf_failures_empty] at h2
      push_neg at h2
      simpa using h2
  · intro h1 h2
    rw [hm]
    unfold checkerConfigResult
    simp only [h1, h2, if_pos, if_neg, ne_eq, not_false_eq_true, ite_true, List.singleton_append]
    exact ⟨_, rfl⟩

/-- Witness for the amended claim C3: the failing analyzer beta makes
the concrete run exit non zero. -/
theorem c3_amended_witness : (main ctxC3 argsC3).exitCode ≠ 0 := by
  have h := c3_amended ctxC3 argsC3 rfl (by decide)
  exact h.1.mpr ⟨"beta", by decide, by decide⟩

/-- Claim C4 counterexample: a query whose requested guideline set is
present but empty takes the list-all-guidelines branch and prints no
checker rows, while the otherwise identical query without a guideline
selector prints the checker table, so the two results differ. -/
theorem c4_counterexample :
    main ctxC4 argsC4empty ≠ main ctxC4 argsC4none ∧
    (main ctxC4 argsC4none).output = [OutEvent.doc .rows ["Name"] [[Cell.str "chk"]]] ∧
    (main ctxC4 argsC4empty).output = [] := by
  decide

/-- Claim C4 amended: a query whose requested guideline set is empty is
not an identity filtered checker query at all: it takes the guideline
listing mode, and the guideline filter itself, applied with an empty
requested set, matches no checker (it would drop every row, not
none). -/
theorem c4_amended (ctx : Ctx) (args : Args) (hg : args.guideline = some [])
    (hp : args.profile ≠ some "list") (hcc : args.checker_config = false) :
    main ctx args = guidelineListResult ctx args ∧
    ∀ c, match_guideline ctx c [] = false := by
  constructor
  · rw [main, if_neg hp, if_neg (by simp [hcc]), if_pos hg]
  · intro c
    simp [match_guideline]

/-- Witness for the amended claim C4 at the concrete one checker
context. -/
theorem c4_amended_witness :
    main ctxC4 argsC4empty = guidelineListResult ctxC4 argsC4empty ∧
      match_guideline ctxC4 "chk" [] = false := by
  have h := c4_amended ctxC4 argsC4empty rfl (by decide) rfl
  exact ⟨h.1, h.2 "chk"⟩

/-- Claim C5 counterexample: a listing query whose filtered row sequence
is empty terminates with exit code zero but emits no document at all:
the output is empty, not an empty bodied document. -/
theorem c5_counterexample :
    listingRows ctxC5 argsC5 = [] ∧ (main ctxC5 argsC5).output = [] ∧
      (main ctxC5 argsC5).exitCode = 0 := by
  decide

/-- Claim C5 amended: a listing query whose filtered row sequence is
empty is not treated as an error (exit code zero), but the program
prints nothing at all: the document print is skipped when there are no
rows. -/
theorem c5_amended (ctx : Ctx) (args : Args) (hp : args.profile ≠ some "list")
    (hcc : args.checker_config = false) (hg : args.guideline ≠ some [])
    (hrows : listingRows ctx args = [])
    (hok : badProfile ctx args = false ∨ ctx.workingAnalyzers = []) :
    (main ctx args).output = [] ∧ (main ctx args).exitCode = 0 := by
  have hm : main ctx args = checkerListResult ctx args := by
    rw [main, if_neg hp, if_neg (by simp [hcc]), if_neg hg]
  rw [hm]
  unfold checkerListResult
  have hcond : (badProfile ctx args && !ctx.workingAnalyzers.isEmpty) = false := by
    rcases hok with h | h
    · simp [h]
    · simp [h]
  rw [if_neg (by simp [hcond])]
  simp [hrows]

/-- Witness for the amended claim C5 at the concrete empty catalog
context. -/
theorem c5_amended_witness :
    (main ctxC5 argsC5).output = [] ∧ (main ctxC5 argsC5).exitCode = 0 :=
  c5_amended ctxC5 argsC5 (by decide) rfl (by decide) (by decide) (Or.inl (by decide))

/-- With a profile requested, every analyzer whose resolved entries are
all non enabled contributes no row: the profile filter drops them
all. -/
theorem checkerRowsOf_eq_nil (ctx : Ctx) (args : Args) (hps : args.profile.isSome = true)
    (l : List String)
    (h : ∀ a ∈ l, ∀ e ∈ ctx.checks a (profileCheckers args), e.2.1 ≠ CheckerState.enabled) :
    checkerRowsOf ctx args l = [] := by
  induction l with
  | nil => rfl
  | cons a rest ih =>
    rw [checkerRowsOf]
    rw [List.filterMap_eq_nil_iff.mpr, List.nil_append]
    · exact ih (fun a2 ha2 => h a2 (List.mem_cons_of_mem _ ha2))
    · intro e he
      have hne := h a (List.mem_cons_self a rest) e he
      have hst : e.2.1 = CheckerState.disabled := by
        cases hv : e.2.1
        · exact absurd hv hne
        · rfl
      have hk : checkerKeep args e.2.1 = false := by
        rw [hst]
        unfold checkerKeep
        rw [if_pos (by simp [hps])]
      unfold checkerRowFor
      rw [hk]
      simp

/-- Claim C1: a listing query requesting a profile whose name is not
among the label store profile descriptions logs a configuration error
and exits with code 1 without printing any document, provided at least
one analyzer is working (the validation sits inside the per analyzer
loop); a known profile, by contrast, never triggers that error: the run
exits with code 0, and when the profile matches zero checkers (every
resolved state stays non enabled) the result is a valid empty one. -/
theorem c1_unknown_profile_exits :
    (∀ (ctx : Ctx) (args : Args) (p : String),
      args.profile = some p → p ≠ "list" → args.checker_config = false →
      args.guideline ≠ some [] → profileExists ctx p = false → ctx.workingAnalyzers ≠ [] →
      (main ctx args).exitCode = 1 ∧
        ∀ ev ∈ (main ctx args).output, ∀ f h r, ev ≠ OutEvent.doc f h r) ∧
    (∀ (ctx : Ctx) (args : Args) (p : String),
      args.profile = some p → p ≠ "list" → args.checker_config = false →
      args.guideline ≠ some [] → profileExists ctx p = true →
      (main ctx args).exitCode = 0 ∧
        ((∀ a ∈ ctx.workingAnalyzers, ∀ e ∈ ctx.checks a (profileCheckers args),
            e.2.1 ≠ CheckerState.enabled) →
          args.show_warnings = false → (main ctx args).output = [])) := by
  constructor
  · intro ctx args p hp hpl hcc hgl hpe hwa
    have hm : main ctx args = checkerListResult ctx args := by
      rw [main, if_neg (by simp [hp, hpl]), if_neg (by simp [hcc]), if_neg hgl]
    have hbad : badProfile ctx args = true := by
      unfold badProfile
      rw [hp]
      simp [hpe]
    rw [hm]
    unfold checkerListResult
    rw [if_pos (by simp [hbad, List.isEmpty_eq_false.mpr hwa])]
    constructor
    · rfl
    · intro ev hev f h r
      simp only [List.mem_cons, List.not_mem_nil, or_false] at hev
      rcases hev with rfl | rfl <;> simp
  · intro ctx args p hp hpl hcc hgl hpe
    have hm : main ctx args = checkerListResult ctx args := by
      rw [main, if_neg (by simp [hp, hpl]), if_neg (by simp [hcc]), if_neg hgl]
    have hbad : badProfile ctx args = false := by
      unfold badProfile
      rw [hp]
      simp [hpe]
    rw [hm]
    unfold checkerListResult
    rw [if_neg (by simp [hbad])]
    refine ⟨rfl, ?_⟩
    intro hdrop hsw
    have hrows : listingRows ctx args = [] := by
      unfold listingRows
      rw [checkerRowsOf_eq_nil ctx args (by rw [hp]; rfl) ctx.workingAnalyzers hdrop,
        hsw, List.nil_append]
      rfl
    simp [hrows]

/-- Witness for claim C1: the unknown profile nope exits with code 1,
the known profile default exits cleanly with an empty output when it
enables no checker. -/
theorem c1_unknown_profile_exits_witness :
    (main ctxC1 argsC1bad).exitCode = 1 ∧ (main ctxC1 argsC1good).exitCode = 0 ∧
      (main ctxC1 argsC1good).output = [] := by
  have h1 := c1_unknown_profile_exits.1 ctxC1 argsC1bad "nope" rfl (by decide) rfl
    (by decide) (by decide) (by decide)
  have h2 := c1_unknown_profile_exits.2 ctxC1 argsC1good "default" rfl (by decide) rfl
    (by decide) (by decide)
  exact ⟨h1.1, h2.1, h2.2 (by decide) rfl⟩

/-- Two members of an association list with the same key are equal when
the keys are pairwise distinct. -/
theorem key_eq_of_nodup {α β : Type} {l : List (α × β)} (hnd : (l.map Prod.fst).Nodup)
    {x y : α × β} (hx : x ∈ l) (hy : y ∈ l) (h : x.1 = y.1) : x = y := by
  induction l with
  | nil => cases hx
  | cons a t ih =>
    rw [List.map_cons, List.nodup_cons] at hnd
    rcases List.mem_cons.mp hx with rfl | hx2
    · rcases List.mem_cons.mp hy with rfl | hy2
      · rfl
      · have hin : y.1 ∈ t.map Prod.fst := List.mem_map_of_mem Prod.fst hy2
        rw [← h] at hin
        exact absurd hin hnd.1
    · rcases List.mem_cons.mp hy with rfl | hy2
      · have hin : x.1 ∈ t.map Prod.fst := List.mem_map_of_mem Prod.fst hx2
        rw [h] at hin
        exact absurd hin hnd.1
      · exact ih hnd.2 hx2 hy2

/-- The name cell of a row produced for a resolved checker entry is the
name of that entry, in details mode and in plain mode alike. -/
theorem rowName_of_checkerRowFor (ctx : Ctx) (args : Args) (an : String)
    (e : String × CheckerState × String) (row : Row)
    (h : checkerRowFor ctx args an e = some row) :
    rowNameCell args row = Cell.str e.1 := by
  unfold checkerRowFor at h
  by_cases hk : (checkerKeep args e.2.1 && guidelinePass ctx args e.1) = true
  · rw [if_pos hk] at h
    obtain rfl : _ = row := Option.some.inj h
    by_cases hd : args.details = true
    · simp [rowNameCell, hd]
    · simp [rowNameCell, hd]
  · rw [if_neg hk] at h
    cases h

/-- A resolved checker entry produces a row exactly when the enabled and
profile filters keep it and the guideline filter passes. -/
theorem isSome_checkerRowFor (ctx : Ctx) (args : Args) (an : String)
    (e : String × CheckerState × String) :
    (checkerRowFor ctx args an e).isSome =
      (checkerKeep args e.2.1 && guidelinePass ctx args e.1) := by
  unfold checkerRowFor
  split <;> simp_all

/-- A name that never occurs among the entries of a checks dictionary
never occurs among the name cells of its produced rows. -/
theorem not_mem_names_filterMap (ctx : Ctx) (args : Args) (an : String)
    (l : List (String × CheckerState × String)) (c : String)
    (hc : c ∉ l.map Prod.fst) :
    Cell.str c ∉ (l.filterMap (checkerRowFor ctx args an)).map (rowNameCell args) := by
  intro hmem
  rw [List.mem_map] at hmem
  obtain ⟨row, hrow, hname⟩ := hmem
  rw [List.mem_filterMap] at hrow
  obtain ⟨e, he, hfe⟩ := hrow
  rw [rowName_of_checkerRowFor ctx args an e row hfe] at hname
  have heq : e.1 = c := Cell.str.inj hname
  rw [← heq] at hc
  exact hc (List.mem_map_of_mem Prod.fst he)

/-- Membership of an entry name among the name cells of the rows of one
analyzer, under distinct entry names: the name appears exactly when the
filters keep the entry. -/
theorem mem_names_filterMap (ctx : Ctx) (args : Args) (an : String)
    (l : List (String × CheckerState × String)) (e : String × CheckerState × String)
    (he : e ∈ l) (hnd : (l.map Prod.fst).Nodup) :
    (Cell.str e.1 ∈ (l.filterMap (checkerRowFor ctx args an)).map (rowNameCell args)) ↔
      (checkerKeep args e.2.1 && guidelinePass ctx args e.1) = true := by
  constructor
  · intro hmem
    rw [List.mem_map] at hmem
    obtain ⟨row, hrow, hname⟩ := hmem
    rw [List.mem_filterMap] at hrow
    obtain ⟨x, hx, hfx⟩ := hrow
    rw [rowName_of_checkerRowFor ctx args an x row hfx] at hname
    have hxe : x = e := key_eq_of_nodup hnd hx he (Cell.str.inj hname)
    subst hxe
    have hs := isSome_checkerRowFor ctx args an x
    rw [hfx] at hs
    exact hs.symm
  · intro hcond
    have hs := isSome_checkerRowFor ctx args an e
    rw [hcond] at hs
    obtain ⟨row, hrow⟩ := Option.isSome_iff_exists.mp hs
    rw [List.mem_map]
    refine ⟨row, ?_, rowName_of_checkerRowFor ctx args an e row hrow⟩
    rw [List.mem_filterMap]
    exact ⟨e, he, hrow⟩

/-- Every name cell of a produced listing row is the name of some
resolved checker entry. -/
theorem name_of_mem_checkerRowsOf (ctx : Ctx) (args : Args) (W : List String) (row : Row)
    (h : row ∈ checkerRowsOf ctx args W) :
    ∃ n ∈ allCheckNames ctx args W, rowNameCell args row = Cell.str n := by
  induction W with
  | nil => cases h
  | cons a rest ih =>
    rw [checkerRowsOf] at h
    rcases List.mem_append.mp h with h1 | h2
    · rw [List.mem_filterMap] at h1
      obtain ⟨e, he, hfe⟩ := h1
      exact ⟨e.1,
        by rw [allCheckNames]; exact List.mem_append_left _ (List.mem_map_of_mem Prod.fst he),
        rowName_of_checkerRowFor ctx args a e row hfe⟩
    · obtain ⟨n, hn, hname⟩ := ih h2
      exact ⟨n, by rw [allCheckNames]; exact List.mem_append_right _ hn, hname⟩

/-- The name of a resolved entry of a working analyzer occurs among all
entry names. -/
theorem mem_allCheckNames_of_mem (ctx : Ctx) (args : Args) (W : List String) (a : String)
    (e : String × CheckerState × String) (ha : a ∈ W)
    (he : e ∈ ctx.checks a (profileCheckers args)) :
    e.1 ∈ allCheckNames ctx args W := by
  induction W with
  | nil => cases ha
  | cons a0 rest ih =>
    rw [allCheckNames]
    rcases List.mem_cons.mp ha with rfl | h2
    · exact List.mem_append_left _ (List.mem_map_of_mem Prod.fst he)
    · exact List.mem_append_right _ (ih h2)

/-- Membership of an entry name among the name cells of the full
listing, under globally distinct entry names: the name appears exactly
when the filters keep the entry. -/
theorem mem_names_checkerRowsOf (ctx : Ctx) (args : Args) (W : List String) (a : String)
    (e : String × CheckerState × String) (ha : a ∈ W)
    (he : e ∈ ctx.checks a (profileCheckers args))
    (hnd : (allCheckNames ctx args W).Nodup) :
    (Cell.str e.1 ∈ (checkerRowsOf ctx args W).map (rowNameCell args)) ↔
      (checkerKeep args e.2.1 && guidelinePass ctx args e.1) = true := by
  induction W with
  | nil => cases ha
  | cons a0 rest ih =>
    rw [allCheckNames, List.nodup_append] at hnd
    obtain ⟨hnd1, hnd2, hdisj⟩ := hnd
    rw [checkerRowsOf, List.map_append]
    rcases List.mem_cons.mp ha with rfl | h2
    · have hblock := mem_names_filterMap ctx args a (ctx.checks a (profileCheckers args)) e he hnd1
      constructor
      · intro hmem
        rcases List.mem_append.mp hmem with h1 | h1
        · exact hblock.mp h1
        · exfalso
          rw [List.mem_map] at h1
          obtain ⟨row, hrow, hname⟩ := h1
          obtain ⟨n, hn, hname2⟩ := name_of_mem_checkerRowsOf ctx args rest row hrow
          rw [hname2] at hname
          have hne : n = e.1 := Cell.str.inj hname
          have hin : e.1 ∈ (ctx.checks a (profileCheckers args)).map Prod.fst :=
            List.mem_map_of_mem Prod.fst he
          exact hdisj hin (hne ▸ hn)
      · intro hcond
        exact List.mem_append.mpr (Or.inl (hblock.mpr hcond))
    · have hin : e.1 ∈ allCheckNames ctx args rest :=
        mem_allCheckNames_of_mem ctx args rest a e h2 he
      have hnot : e.1 ∉ (ctx.checks a0 (profileCheckers args)).map Prod.fst :=
        fun hx => hdisj hx hin
      constructor
      · intro hmem
        rcases List.mem_append.mp hmem with h1 | h1
        · exact absurd h1
            (not_mem_names_filterMap ctx args a0 (ctx.checks a0 (profileCheckers args)) e.1 hnot)
        · exact (ih h2 hnd2).mp h1
      · intro hcond
        exact List.mem_append.mpr (Or.inr ((ih h2 hnd2).mpr hcond))

/-- Changing only the enabled and disabled filter flags does not change
the resolved entry names: the checks oracle only depends on the profile
directives. -/
theorem allCheckNames_only_flags (ctx : Ctx) (args : Args) (x y : Bool) (W : List String) :
    allCheckNames ctx { args with only_enabled := x, only_disabled := y } W
      = allCheckNames ctx args W := by
  induction W with
  | nil => rfl
  | cons a rest ih =>
    rw [allCheckNames, allCheckNames, ih]
    rfl

/-- Claim C6: for every checker entry surviving state resolution and the
profile filter (resolved enabled, or no profile requested) and passing
the guideline filter, with all resolved entry names distinct, the
checker name appears in the only-enabled listing exactly when it does
not appear in the only-disabled listing of the otherwise identical
query: the two filters partition the surviving checkers with no overlap
and no omission. -/
theorem c6_only_filters_partition (ctx : Ctx) (args : Args) (a : String)
    (e : String × CheckerState × String) (ha : a ∈ ctx.workingAnalyzers)
    (he : e ∈ ctx.checks a (profileCheckers args))
    (hnd : (allCheckNames ctx args ctx.workingAnalyzers).Nodup)
    (hsurv : e.2.1 = CheckerState.enabled ∨ args.profile = none)
    (hg : guidelinePass ctx args e.1 = true) :
    (Cell.str e.1 ∈
        (checkerRowsOf ctx { args with only_enabled := true, only_disabled := false }
          ctx.workingAnalyzers).map
          (rowNameCell { args with only_enabled := true, only_disabled := false }) ↔
      Cell.str e.1 ∉
        (checkerRowsOf ctx { args with only_enabled := false, only_disabled := true }
          ctx.workingAnalyzers).map
          (rowNameCell { args with only_enabled := false, only_disabled := true })) := by
  have hndoe : (allCheckNames ctx { args with only_enabled := true, only_disabled := false }
      ctx.workingAnalyzers).Nodup := by
    rw [allCheckNames_only_flags]; exact hnd
  have hndod : (allCheckNames ctx { args with only_enabled := false, only_disabled := true }
      ctx.workingAnalyzers).Nodup := by
    rw [allCheckNames_only_flags]; exact hnd
  have hoe := mem_names_checkerRowsOf ctx
    { args with only_enabled := true, only_disabled := false } ctx.workingAnalyzers a e ha he hndoe
  have hod := mem_names_checkerRowsOf ctx
    { args with only_enabled := false, only_disabled := true } ctx.workingAnalyzers a e ha he hndod
  rw [hoe, hod]
  have hgoe : guidelinePass ctx { args with only_enabled := true, only_disabled := false } e.1
      = true := hg
  have hgod : guidelinePass ctx { args with only_enabled := false, only_disabled := true } e.1
      = true := hg
  rw [hgoe, hgod]
  rcases hsurv with hst | hpn
  · rw [hst]
    simp [checkerKeep]
  · cases hst2 : e.2.1 with
    | enabled => simp [checkerKeep]
    | disabled => simp [checkerKeep, hpn]

/-- Witness for claim C6 at a concrete single enabled checker. -/
theorem c6_only_filters_partition_witness :
    (Cell.str "chk" ∈
        (checkerRowsOf ctxC6 { argsBase with only_enabled := true, only_disabled := false }
          ctxC6.workingAnalyzers).map
          (rowNameCell { argsBase with only_enabled := true, only_disabled := false }) ↔
      Cell.str "chk" ∉
        (checkerRowsOf ctxC6 { argsBase with only_enabled := false, only_disabled := true }
          ctxC6.workingAnalyzers).map
          (rowNameCell { argsBase with only_enabled := false, only_disabled := true })) :=
  c6_only_filters_partition ctxC6 argsBase "an" ("chk", CheckerState.enabled, "d")
    (by decide) (by decide) (by decide) (Or.inl rfl) rfl

end Checkers
